import Mathlib

/-!
Verification of the minigbm DRI backend (`dri.c`) and the gralloc0 HAL
adapter (`cros_gralloc/gralloc0/gralloc0.cc`).

The C sources are shallowly embedded: driver/extension behaviour that the
code observes through function pointers (queryImage, createImage, dlopen,
lseek, ...) is supplied by explicit environment records, and each embedded
function returns its result together with a trace of the externally visible
calls it made.  Machine integers are modelled as `Nat`/`Int` with explicit
reductions modulo `2 ^ 32` / `2 ^ 64` at the points where the C code stores
into a fixed-width field.
-/

namespace Minigbm

/-! ## Constants

Numeric constants from headers that are not part of this repository
(`drm_fourcc.h`, `dri_interface.h`, `hardware/gralloc.h`, `drv.h`,
`errno.h`).  The fourcc, HAL-format, gralloc-usage and errno values are the
real ABI values; the DRI image-format codes and the minigbm `BO_USE_*` bits
only need to be the distinct bit patterns the code tests, and are written
with their usual values.
-/

/-- fourcc_code from drm_fourcc.h. -/
def fourcc (a b c d : Nat) : Nat := a ||| (b <<< 8) ||| (c <<< 16) ||| (d <<< 24)

def DRM_FORMAT_R8 : Nat := fourcc 0x52 0x38 0x20 0x20
def DRM_FORMAT_GR88 : Nat := fourcc 0x47 0x52 0x38 0x38
def DRM_FORMAT_RGB565 : Nat := fourcc 0x52 0x47 0x31 0x36
def DRM_FORMAT_XRGB8888 : Nat := fourcc 0x58 0x52 0x32 0x34
def DRM_FORMAT_ARGB8888 : Nat := fourcc 0x41 0x52 0x32 0x34
def DRM_FORMAT_XBGR8888 : Nat := fourcc 0x58 0x42 0x32 0x34
def DRM_FORMAT_ABGR8888 : Nat := fourcc 0x41 0x42 0x32 0x34
def DRM_FORMAT_XRGB2101010 : Nat := fourcc 0x58 0x52 0x33 0x30
def DRM_FORMAT_XBGR2101010 : Nat := fourcc 0x58 0x42 0x33 0x30
def DRM_FORMAT_ARGB2101010 : Nat := fourcc 0x41 0x52 0x33 0x30
def DRM_FORMAT_ABGR2101010 : Nat := fourcc 0x41 0x42 0x33 0x30
def DRM_FORMAT_NV12 : Nat := fourcc 0x4e 0x56 0x31 0x32
def DRM_FORMAT_YVU420 : Nat := fourcc 0x59 0x56 0x31 0x32
/-- minigbm-private fourcc for the Android YV12 layout. -/
def DRM_FORMAT_YVU420_ANDROID : Nat := fourcc 0x39 0x39 0x39 0x37

/-- DRM_FORMAT_MOD_INVALID from drm_fourcc.h: reserved modifier value. -/
def DRM_FORMAT_MOD_INVALID : Nat := 2 ^ 56 - 1

/-- DRI image format codes from dri_interface.h. -/
def DRI_IMAGE_FORMAT_RGB565 : Nat := 0x1001
def DRI_IMAGE_FORMAT_XRGB8888 : Nat := 0x1002
def DRI_IMAGE_FORMAT_ARGB8888 : Nat := 0x1003
def DRI_IMAGE_FORMAT_ABGR8888 : Nat := 0x1004
def DRI_IMAGE_FORMAT_XBGR8888 : Nat := 0x1005
def DRI_IMAGE_FORMAT_R8 : Nat := 0x1006
def DRI_IMAGE_FORMAT_GR88 : Nat := 0x1007
def DRI_IMAGE_FORMAT_XRGB2101010 : Nat := 0x1009
def DRI_IMAGE_FORMAT_XBGR2101010 : Nat := 0x100a
def DRI_IMAGE_FORMAT_ARGB2101010 : Nat := 0x100b
def DRI_IMAGE_FORMAT_ABGR2101010 : Nat := 0x100c

/-- DRI image use bits from dri_interface.h. -/
def DRI_IMAGE_USE_SHARE : Nat := 0x0001
def DRI_IMAGE_USE_SCANOUT : Nat := 0x0002
def DRI_IMAGE_USE_CURSOR : Nat := 0x0004
def DRI_IMAGE_USE_LINEAR : Nat := 0x0008

/-- DRI image attribute codes from dri_interface.h. -/
def DRI_IMAGE_ATTRIB_STRIDE : Nat := 0x2000
def DRI_IMAGE_ATTRIB_HANDLE : Nat := 0x2001

/-- dri2 flush flag from dri_interface.h. -/
def DRI2_FLUSH_CONTEXT : Nat := 0x1

/-- minigbm use flags from drv.h. -/
def BO_USE_NONE : Nat := 0
def BO_USE_SCANOUT : Nat := 1 <<< 0
def BO_USE_CURSOR : Nat := 1 <<< 1
def BO_USE_RENDERING : Nat := 1 <<< 2
def BO_USE_LINEAR : Nat := 1 <<< 4
def BO_USE_TEXTURE : Nat := 1 <<< 5
def BO_USE_CAMERA_WRITE : Nat := 1 <<< 6
def BO_USE_CAMERA_READ : Nat := 1 <<< 7
def BO_USE_PROTECTED : Nat := 1 <<< 8
def BO_USE_SW_READ_OFTEN : Nat := 1 <<< 9
def BO_USE_SW_READ_RARELY : Nat := 1 <<< 10
def BO_USE_SW_WRITE_OFTEN : Nat := 1 <<< 11
def BO_USE_SW_WRITE_RARELY : Nat := 1 <<< 12
def BO_USE_HW_VIDEO_ENCODER : Nat := 1 <<< 14
def BO_USE_RENDERSCRIPT : Nat := 1 <<< 16
def BO_USE_FRAMEBUFFER : Nat := 1 <<< 17
def BO_USE_SW_MASK : Nat :=
  BO_USE_SW_READ_OFTEN ||| BO_USE_SW_READ_RARELY |||
  BO_USE_SW_WRITE_OFTEN ||| BO_USE_SW_WRITE_RARELY

/-- Android gralloc usage bits from hardware/gralloc.h. -/
def GRALLOC_USAGE_SW_READ_RARELY : Nat := 0x2
def GRALLOC_USAGE_SW_READ_OFTEN : Nat := 0x3
def GRALLOC_USAGE_SW_READ_MASK : Nat := 0xF
def GRALLOC_USAGE_SW_WRITE_RARELY : Nat := 0x20
def GRALLOC_USAGE_SW_WRITE_OFTEN : Nat := 0x30
def GRALLOC_USAGE_SW_WRITE_MASK : Nat := 0xF0
def GRALLOC_USAGE_HW_TEXTURE : Nat := 0x100
def GRALLOC_USAGE_HW_RENDER : Nat := 0x200
def GRALLOC_USAGE_HW_2D : Nat := 0x400
def GRALLOC_USAGE_HW_COMPOSER : Nat := 0x800
def GRALLOC_USAGE_HW_FB : Nat := 0x1000
def GRALLOC_USAGE_EXTERNAL_DISP : Nat := 0x2000
def GRALLOC_USAGE_PROTECTED : Nat := 0x4000
def GRALLOC_USAGE_CURSOR : Nat := 0x8000
def GRALLOC_USAGE_HW_VIDEO_ENCODER : Nat := 0x10000
def GRALLOC_USAGE_HW_CAMERA_WRITE : Nat := 0x20000
def GRALLOC_USAGE_HW_CAMERA_READ : Nat := 0x40000
def GRALLOC_USAGE_RENDERSCRIPT : Nat := 0x100000

/-- Android HAL pixel formats from graphics.h. -/
def HAL_PIXEL_FORMAT_YCbCr_420_888 : Int := 35
def HAL_PIXEL_FORMAT_YV12 : Int := 0x32315659
def HAL_PIXEL_FORMAT_IMPLEMENTATION_DEFINED : Int := 34

/-- errno values used by the embedded code. -/
def ENOENT : Int := 2
def ENODEV : Int := 19
def EINVAL : Int := 22
def ENOSYS : Int := 38

/-- mask of a 64-bit word, used to model `~x` on a uint64_t. -/
def UINT64_MASK : Nat := 2 ^ 64 - 1

/-- DIV_ROUND_UP from util.h. -/
def divRoundUp (n d : Nat) : Nat := (n + d - 1) / d

/-! ## drm_format_to_dri_format (dri.c) -/

/-- Table `drm_to_dri_image_formats` from dri.c. -/
def drm_to_dri_image_formats : List (Nat × Nat) :=
  [(DRM_FORMAT_R8, DRI_IMAGE_FORMAT_R8),
   (DRM_FORMAT_GR88, DRI_IMAGE_FORMAT_GR88),
   (DRM_FORMAT_RGB565, DRI_IMAGE_FORMAT_RGB565),
   (DRM_FORMAT_XRGB8888, DRI_IMAGE_FORMAT_XRGB8888),
   (DRM_FORMAT_ARGB8888, DRI_IMAGE_FORMAT_ARGB8888),
   (DRM_FORMAT_XBGR8888, DRI_IMAGE_FORMAT_XBGR8888),
   (DRM_FORMAT_ABGR8888, DRI_IMAGE_FORMAT_ABGR8888),
   (DRM_FORMAT_XRGB2101010, DRI_IMAGE_FORMAT_XRGB2101010),
   (DRM_FORMAT_XBGR2101010, DRI_IMAGE_FORMAT_XBGR2101010),
   (DRM_FORMAT_ARGB2101010, DRI_IMAGE_FORMAT_ARGB2101010),
   (DRM_FORMAT_ABGR2101010, DRI_IMAGE_FORMAT_ABGR2101010)]

/-- dri.c `drm_format_to_dri_format`: linear scan of the table, 0 when the
format has no DRI image representation. -/
def drm_format_to_dri_format (drmFormat : Nat) : Nat :=
  match drm_to_dri_image_formats.find? (fun e => e.1 == drmFormat) with
  | some e => e.2
  | none => 0

/-! ## Buffer-object metadata

`struct bo_metadata` fields used by dri.c.  The per-plane C arrays are
`DRV_MAX_PLANES`(= 4) wide; we model the first `num_planes` entries, the
ones the embedded functions write.
-/

structure BoMeta where
  numPlanes : Nat
  strides : List Nat
  offsets : List Nat
  sizes : List Nat
  handles : List Nat
  totalSize : Nat
  formatModifier : Nat
deriving DecidableEq

/-- A zeroed `bo_metadata`, as produced by the buffer-object manager before
a create/import call reaches the backend. -/
def boZero : BoMeta :=
  { numPlanes := 0, strides := [], offsets := [], sizes := [], handles := []
    totalSize := 0, formatModifier := 0 }

/-! ## import_into_minigbm (dri.c)

The driver answers `queryImage`/`fromPlanar`/`lseek` through the
environment below.  Per-plane query answers: `stride`, `offset` and
`handle` are the 32-bit values the code stores into the `uint32_t` metadata
arrays; `dmabufSize` is the `off_t` returned by `lseek(fd, 0, SEEK_END)`
(-1 on failure).
-/

structure PlaneQuery where
  strideOk : Bool
  offsetOk : Bool
  fdOk : Bool
  handleOk : Bool
  stride : Nat
  offset : Nat
  handle : Nat
  dmabufSize : Int
deriving DecidableEq

/-- Environment of driver answers for one `import_into_minigbm` run.  The
number of planes reported by the `__DRI_IMAGE_ATTRIB_NUM_PLANES` query is
`planes.length`. -/
structure ImportEnv where
  modifierUpperOk : Bool
  modifierLowerOk : Bool
  modifierUpper : Int
  modifierLower : Int
  numPlanesOk : Bool
  planes : List PlaneQuery
  errnoVal : Int
deriving DecidableEq

/-- Values collected for one plane by the first loop of
`import_into_minigbm`. -/
structure CPlane where
  stride : Nat
  offset : Nat
  handle : Nat
  dmabufSize : Int
deriving DecidableEq

/-- First loop of `import_into_minigbm`: per plane, query stride and offset,
query the prime fd, take the dma-buf size by seek-to-end, and query the
kernel handle; any failure aborts the whole import. -/
def collectPlanes : List PlaneQuery → Option (List CPlane)
  | [] => some []
  | q :: t =>
    if ¬(q.strideOk ∧ q.offsetOk) then none
    else if ¬q.fdOk then none
    else if q.dmabufSize = -1 then none
    else if ¬q.handleOk then none
    else (collectPlanes t).map (fun cs => ⟨q.stride, q.offset, q.handle, q.dmabufSize⟩ :: cs)

/-- dri.c: `((uint64_t)modifier_upper << 32) | (uint32_t)modifier_lower`,
where both halves are the signed ints written by `queryImage`. -/
def combineModifier (upper lower : Int) : Nat :=
  ((((upper % (2 ^ 64 : Int)).toNat) <<< 32) % 2 ^ 64) ||| ((lower % (2 ^ 32 : Int)).toNat)

/-- Inner scan of the second loop of `import_into_minigbm`: starting from
this plane's dma-buf size, replace `next_plane` by any strictly smaller
offset that is strictly greater than this plane's offset and belongs to a
plane with the same kernel handle. -/
def scanNext (cs : List CPlane) (p : CPlane) : Int :=
  cs.foldl
    (fun next q =>
      if (q.offset : Int) < next ∧ p.offset < q.offset ∧ q.handle = p.handle then
        (q.offset : Int)
      else next)
    p.dmabufSize

/-- dri.c `import_into_minigbm`: read the format modifier, read the plane
count, collect per-plane stride/offset/dma-buf-size/handle, then derive
per-plane sizes from the offset gaps and accumulate the total size.  The
stores into `uint32_t sizes[]` and the `size_t` total are reduced modulo
the field widths. -/
def import_into_minigbm (env : ImportEnv) (bo0 : BoMeta) : Except Int BoMeta :=
  let fm :=
    if env.modifierUpperOk && env.modifierLowerOk then
      combineModifier env.modifierUpper env.modifierLower
    else DRM_FORMAT_MOD_INVALID
  if ¬env.numPlanesOk then Except.error (-env.errnoVal)
  else
    match collectPlanes env.planes with
    | none => Except.error (-env.errnoVal)
    | some cs =>
      let sizes := cs.map fun p => ((scanNext cs p - (p.offset : Int)) % (2 ^ 32 : Int)).toNat
      Except.ok
        { bo0 with
          strides := cs.map (·.stride)
          offsets := cs.map (·.offset)
          handles := cs.map (·.handle)
          sizes := sizes
          totalSize := sizes.foldl (fun a s => (a + s) % 2 ^ 64) bo0.totalSize
          formatModifier := fm }

/-! ## Derived forms of the size scan -/

/-- Offsets of the planes that share this plane's kernel handle and sit at
a strictly greater offset. -/
def greaterOffsets (cs : List CPlane) (p : CPlane) : List Int :=
  (cs.filter fun q => decide (p.offset < q.offset ∧ q.handle = p.handle)).map
    (fun q => (q.offset : Int))

/-- Capped form of the scan: the minimum of this plane's dma-buf size and
all same-handle offsets strictly greater than this plane's offset. -/
def specNextCapped (cs : List CPlane) (p : CPlane) : Int :=
  (greaterOffsets cs p).foldl min p.dmabufSize

/-- Following the claim's words: the smallest same-handle offset strictly
greater than this plane's offset, defaulting to the dma-buf size only when
no such plane exists (no capping). -/
def specNextClaimed (cs : List CPlane) (p : CPlane) : Int :=
  match greaterOffsets cs p with
  | [] => p.dmabufSize
  | x :: xs => xs.foldl min x

theorem foldl_min_scan (p : CPlane) :
    ∀ (l : List CPlane) (d : Int),
      l.foldl
        (fun next q =>
          if (q.offset : Int) < next ∧ p.offset < q.offset ∧ q.handle = p.handle then
            (q.offset : Int)
          else next)
        d =
      ((l.filter fun q => decide (p.offset < q.offset ∧ q.handle = p.handle)).map
        (fun q => (q.offset : Int))).foldl min d := by
  intro l
  induction l with
  | nil => intro d; rfl
  | cons q t ih =>
    intro d
    by_cases hq : p.offset < q.offset ∧ q.handle = p.handle
    · rw [List.foldl_cons, List.filter_cons_of_pos (by simpa using hq), List.map_cons,
        List.foldl_cons]
      by_cases hlt : (q.offset : Int) < d
      · rw [if_pos ⟨hlt, hq⟩, ih, min_eq_right hlt.le]
      · rw [if_neg (fun h => hlt h.1), ih, min_eq_left (le_of_not_lt hlt)]
    · rw [List.foldl_cons, List.filter_cons_of_neg (by simpa using hq),
        if_neg (fun h => hq ⟨h.2.1, h.2.2⟩), ih]

theorem scanNext_eq_capped (cs : List CPlane) (p : CPlane) :
    scanNext cs p = specNextCapped cs p :=
  foldl_min_scan p cs p.dmabufSize

theorem foldl_min_le_init (l : List Int) (d : Int) : l.foldl min d ≤ d := by
  induction l generalizing d with
  | nil => exact le_refl d
  | cons x t ih => exact le_trans (ih (min d x)) (min_le_left d x)

theorem le_foldl_min (a : Int) (l : List Int) (d : Int) (hd : a ≤ d)
    (hl : ∀ x ∈ l, a ≤ x) : a ≤ l.foldl min d := by
  induction l generalizing d with
  | nil => exact hd
  | cons x t ih =>
    exact ih (min d x) (le_min hd (hl x (List.mem_cons_self x t))) fun y hy =>
      hl y (List.mem_cons_of_mem x hy)

theorem foldl_min_lt (B : Int) (l : List Int) (d : Int) (hd : d < B) :
    l.foldl min d < B := by
  induction l generalizing d with
  | nil => exact hd
  | cons x t ih => exact ih (min d x) (lt_of_le_of_lt (min_le_left d x) hd)

theorem foldl_add_mod_of_lt :
    ∀ (l : List Nat) (a : Nat), a + l.sum < 2 ^ 64 →
      l.foldl (fun a s => (a + s) % 2 ^ 64) a = a + l.sum := by
  intro l
  induction l with
  | nil => intro a _; simp
  | cons s t ih =>
    intro a hlt
    rw [List.foldl_cons, Nat.mod_eq_of_lt (by simp [List.sum_cons] at hlt; omega),
      ih (a + s) (by simp [List.sum_cons] at hlt; omega)]
    simp [List.sum_cons]
    omega

/-- The sizes computed by `import_into_minigbm` all fit in 32 bits. -/
theorem import_sizes_lt (cs : List CPlane) :
    ∀ x ∈ cs.map (fun p => ((scanNext cs p - (p.offset : Int)) % (2 ^ 32 : Int)).toNat),
      x < 2 ^ 32 := by
  intro x hx
  obtain ⟨p, _, rfl⟩ := List.mem_map.mp hx
  have h1 : (0 : Int) ≤ (scanNext cs p - (p.offset : Int)) % (2 ^ 32 : Int) :=
    Int.emod_nonneg _ (by norm_num)
  have h2 : (scanNext cs p - (p.offset : Int)) % (2 ^ 32 : Int) < 2 ^ 32 :=
    Int.emod_lt_of_pos _ (by norm_num)
  omega

/-- C1, amended.  On a successful import whose driver-reported planes are
well-formed (each offset fits in 32 bits and does not exceed its dma-buf
size, that size fits in 32 bits, and at most `DRV_MAX_PLANES` = 4 planes
are reported) starting from a fresh buffer object, each plane's size is
the minimum of its dma-buf size and the smallest strictly-greater offset
among planes sharing its kernel handle, minus its own offset; and the
total size is the sum of the per-plane sizes. -/
theorem c1_import_plane_sizes (env : ImportEnv) (bo0 : BoMeta) (cs : List CPlane) (m : BoMeta)
    (hcol : collectPlanes env.planes = some cs)
    (hb : ∀ p ∈ cs, p.offset < 2 ^ 32 ∧ (p.offset : Int) ≤ p.dmabufSize ∧ p.dmabufSize < 2 ^ 32)
    (hlen : cs.length ≤ 4)
    (htot : bo0.totalSize = 0)
    (h : import_into_minigbm env bo0 = Except.ok m) :
    m.sizes = cs.map (fun p => (specNextCapped cs p - (p.offset : Int)).toNat)
    ∧ m.totalSize = m.sizes.sum := by
  simp only [import_into_minigbm, hcol] at h
  split at h
  · exact absurd h (by simp)
  · simp only [Except.ok.injEq] at h
    subst h
    have hsz : (cs.map fun p => ((scanNext cs p - (p.offset : Int)) % (2 ^ 32 : Int)).toNat) =
        cs.map (fun p => (specNextCapped cs p - (p.offset : Int)).toNat) := by
      refine List.map_congr_left fun p hp => ?_
      rw [scanNext_eq_capped]
      have hub : specNextCapped cs p < 2 ^ 32 :=
        foldl_min_lt _ _ _ (hb p hp).2.2
      have hlb : (p.offset : Int) ≤ specNextCapped cs p := by
        refine le_foldl_min _ _ _ (hb p hp).2.1 fun x hx => ?_
        obtain ⟨q, hq, rfl⟩ := List.mem_map.mp hx
        have hq2 := List.of_mem_filter hq
        simp only [decide_eq_true_eq] at hq2
        exact_mod_cast (Nat.le_of_lt hq2.1)
      rw [Int.emod_eq_of_lt (by omega) (by omega)]
    constructor
    · exact hsz
    · have hlt : ∀ x ∈ cs.map
          (fun p => ((scanNext cs p - (p.offset : Int)) % (2 ^ 32 : Int)).toNat), x < 2 ^ 32 :=
        import_sizes_lt cs
      have hsum : (cs.map fun p =>
          ((scanNext cs p - (p.offset : Int)) % (2 ^ 32 : Int)).toNat).sum < 2 ^ 64 := by
        have hle : ∀ x ∈ cs.map
            (fun p => ((scanNext cs p - (p.offset : Int)) % (2 ^ 32 : Int)).toNat),
            x ≤ 2 ^ 32 - 1 := fun x hx => by have := hlt x hx; omega
        have := List.sum_le_card_nsmul _ _ hle
        simp only [List.length_map, smul_eq_mul] at this
        calc (cs.map fun p =>
            ((scanNext cs p - (p.offset : Int)) % (2 ^ 32 : Int)).toNat).sum
            ≤ cs.length * (2 ^ 32 - 1) := this
          _ ≤ 4 * (2 ^ 32 - 1) := Nat.mul_le_mul_right _ hlen
          _ < 2 ^ 64 := by norm_num
      simp only [htot]
      rw [foldl_add_mod_of_lt _ 0 (by omega)]
      omega

/-- Driver answers for one plane with every query succeeding. -/
def pqOk (stride offset handle : Nat) (d : Int) : PlaneQuery :=
  { strideOk := true, offsetOk := true, fdOk := true, handleOk := true
    stride := stride, offset := offset, handle := handle, dmabufSize := d }

/-- Import environment of the adversarial two-plane image used to refute
the uncapped size formula: both planes share handle 7, plane 0's dma-buf
reports only 50 bytes while plane 1 sits at offset 100. -/
def c1ceEnv : ImportEnv :=
  { modifierUpperOk := false, modifierLowerOk := false, modifierUpper := 0, modifierLower := 0
    numPlanesOk := true, errnoVal := 0
    planes := [pqOk 1 0 7 50, pqOk 1 100 7 200] }

def c1ceCs : List CPlane := [⟨1, 0, 7, 50⟩, ⟨1, 100, 7, 200⟩]

def c1ceM : BoMeta :=
  { numPlanes := 0, strides := [1, 1], offsets := [0, 100], sizes := [50, 100]
    handles := [7, 7], totalSize := 150, formatModifier := DRM_FORMAT_MOD_INVALID }

/-- C1, counterexample.  On the two-plane image of `c1ceEnv` the code
derives plane-0 size 50 (capped by the dma-buf size), while the claim's
formula — smallest strictly-greater same-handle offset, dma-buf size only
when none exists — demands 100.  The claim as stated is therefore false. -/
theorem c1_counterexample :
    collectPlanes c1ceEnv.planes = some c1ceCs
    ∧ import_into_minigbm c1ceEnv boZero = Except.ok c1ceM
    ∧ c1ceM.sizes = [50, 100]
    ∧ c1ceCs.map (fun p => (specNextClaimed c1ceCs p - (p.offset : Int)).toNat) = [100, 100]
    ∧ c1ceM.sizes ≠ c1ceCs.map (fun p => (specNextClaimed c1ceCs p - (p.offset : Int)).toNat) :=
  ⟨rfl, rfl, rfl, rfl, by decide⟩

/-- Import environment realising the spec's reconciliation example: two
planes sharing one kernel handle at offsets 0 and 4096, dma-buf size
6144. -/
def c1Env : ImportEnv :=
  { modifierUpperOk := false, modifierLowerOk := false, modifierUpper := 0, modifierLower := 0
    numPlanesOk := true, errnoVal := 0
    planes := [pqOk 4096 0 5 6144, pqOk 2048 4096 5 6144] }

def c1Cs : List CPlane := [⟨4096, 0, 5, 6144⟩, ⟨2048, 4096, 5, 6144⟩]

def c1M : BoMeta :=
  { numPlanes := 0, strides := [4096, 2048], offsets := [0, 4096], sizes := [4096, 2048]
    handles := [5, 5], totalSize := 6144, formatModifier := DRM_FORMAT_MOD_INVALID }

theorem c1_import_plane_sizes_witness :
    (collectPlanes c1Env.planes = some c1Cs
      ∧ import_into_minigbm c1Env boZero = Except.ok c1M
      ∧ c1M.sizes = [4096, 2048])
    ∧ (c1M.sizes = c1Cs.map (fun p => (specNextCapped c1Cs p - (p.offset : Int)).toNat)
      ∧ c1M.totalSize = c1M.sizes.sum) :=
  ⟨⟨rfl, rfl, rfl⟩,
    c1_import_plane_sizes c1Env boZero c1Cs c1M rfl (by decide) (by decide) rfl rfl⟩

/-- C6.  On a successful import the format modifier is
`((uint64_t)upper << 32) | (uint32_t)lower` when both modifier queries
succeed, and the `DRM_FORMAT_MOD_INVALID` sentinel when either fails. -/
theorem c6_modifier_combine (env : ImportEnv) (bo0 : BoMeta) (m : BoMeta)
    (h : import_into_minigbm env bo0 = Except.ok m) :
    ((env.modifierUpperOk && env.modifierLowerOk) = true →
      m.formatModifier = combineModifier env.modifierUpper env.modifierLower)
    ∧ ((env.modifierUpperOk && env.modifierLowerOk) = false →
      m.formatModifier = DRM_FORMAT_MOD_INVALID) := by
  simp only [import_into_minigbm] at h
  split at h
  · exact absurd h (by simp)
  · split at h
    · exact absurd h (by simp)
    · simp only [Except.ok.injEq] at h
      subst h
      constructor
      · intro hok; simp [hok]
      · intro hko; simp [hko]

def c6Env : ImportEnv :=
  { modifierUpperOk := true, modifierLowerOk := true, modifierUpper := 256, modifierLower := 2
    numPlanesOk := true, errnoVal := 0, planes := [] }

def c6M : BoMeta :=
  { numPlanes := 0, strides := [], offsets := [], sizes := [], handles := []
    totalSize := 0, formatModifier := 1099511627778 }

theorem c6_modifier_combine_witness :
    (import_into_minigbm c6Env boZero = Except.ok c6M
      ∧ (c6Env.modifierUpperOk && c6Env.modifierLowerOk) = true)
    ∧ c6M.formatModifier = combineModifier 256 2 :=
  ⟨⟨rfl, rfl⟩, (c6_modifier_combine c6Env boZero c6M rfl).1 rfl⟩

/-! ## dri_bo_create_common (dri.c) -/

/-- Plane layout produced by `drv_bo_from_format`: the `bo_metadata` fields
it fills in. -/
structure Layout where
  numPlanes : Nat
  strides : List Nat
  offsets : List Nat
  sizes : List Nat
  totalSize : Nat
deriving DecidableEq

/-- Modelled from the spec: the format byte-layout helpers
`drv_stride_from_format`, `drv_bytes_per_pixel_from_format` and
`drv_bo_from_format` (helpers.c, not part of this source set) compute
per-plane stride/offset/size geometry from a format's layout rules.  dri.c
only ever applies the first two at plane 0, so the plane argument is
dropped; the helpers stay abstract parameters of the backend. -/
structure Helpers where
  strideFromFormat : Nat → Nat → Nat
  bytesPerPixel : Nat → Nat
  boFromFormat : Nat → Nat → Nat → Layout

/-- Write the fields computed by `drv_bo_from_format` into a
`bo_metadata`. -/
def applyLayout (bo : BoMeta) (L : Layout) : BoMeta :=
  { bo with numPlanes := L.numPlanes, strides := L.strides, offsets := L.offsets
            sizes := L.sizes, totalSize := L.totalSize }

/-- dri.c `dri_bo_create_common` lines 317-324: translate minigbm use flags
into DRI image use bits; sharing is always requested. -/
def dri_use_flags (useFlags : Nat) : Nat :=
  DRI_IMAGE_USE_SHARE
  ||| (if useFlags &&& BO_USE_SCANOUT ≠ 0 then DRI_IMAGE_USE_SCANOUT else 0)
  ||| (if useFlags &&& BO_USE_CURSOR ≠ 0 then DRI_IMAGE_USE_CURSOR else 0)
  ||| (if useFlags &&& (BO_USE_LINEAR ||| BO_USE_SW_MASK) ≠ 0 then DRI_IMAGE_USE_LINEAR else 0)

/-- The allocation call issued to the DRI image extension, with the
arguments the code passes. -/
inductive AllocCall where
  | createImage (width height driFormat driUse : Nat)
  | createImageWithModifiers (width height driFormat : Nat) (modifiers : List Nat)
deriving DecidableEq

/-- Trace of a `dri_bo_create_common` run: the final value of the `dri_use`
variable, the allocation call made (none when creation bailed out before
allocating), and the `queryImage` calls of the fallback path as
(attribute, plane) pairs. -/
structure CreateTrace where
  driUse : Nat
  allocCall : Option AllocCall
  queries : List (Nat × Nat)
deriving DecidableEq

/-- Environment of driver answers for a `dri_bo_create_common` run. -/
structure CreateEnv where
  hasCreateWithModifiers : Bool
  createImageOk : Bool
  createWithModifiersOk : Bool
  plane0HandleOk : Bool
  plane0Handle : Nat
  plane0StrideOk : Bool
  plane0Stride : Nat
  errnoVal : Int
  importEnv : ImportEnv

/-- Post-allocation half of `dri_bo_create_common` (lines 351-380): on the
fallback path query plane 0's handle and stride, recompute the geometry
with `drv_bo_from_format` on the reported stride and copy plane 0's handle
to every plane; on the native path run `import_into_minigbm`. -/
def dri_create_post (H : Helpers) (env : CreateEnv) (bo1 : BoMeta)
    (height format driFormat0 driUse : Nat) (call : AllocCall) :
    Except Int BoMeta × CreateTrace :=
  if driFormat0 = 0 then
    if ¬env.plane0HandleOk then
      (Except.error (-env.errnoVal), ⟨driUse, some call, [(DRI_IMAGE_ATTRIB_HANDLE, 0)]⟩)
    else if ¬env.plane0StrideOk then
      (Except.error (-env.errnoVal),
        ⟨driUse, some call, [(DRI_IMAGE_ATTRIB_HANDLE, 0), (DRI_IMAGE_ATTRIB_STRIDE, 0)]⟩)
    else
      let L2 := H.boFromFormat env.plane0Stride height format
      (Except.ok
        { applyLayout bo1 L2 with handles := List.replicate L2.numPlanes env.plane0Handle },
        ⟨driUse, some call, [(DRI_IMAGE_ATTRIB_HANDLE, 0), (DRI_IMAGE_ATTRIB_STRIDE, 0)]⟩)
  else
    match import_into_minigbm env.importEnv bo1 with
    | Except.ok m => (Except.ok m, ⟨driUse, some call, []⟩)
    | Except.error e => (Except.error e, ⟨driUse, some call, []⟩)

/-- dri.c `dri_bo_create_common`.  When the format has no DRI image
representation the buffer is allocated as a linear R8 byte blob of
width `stride / bytes_per_pixel` and height
`DIV_ROUND_UP(total_size, width)`; a non-empty modifier list requires the
`createImageWithModifiers` entry point (else `-ENOENT`) and is passed the
caller's original width and height. -/
def dri_bo_create_common (H : Helpers) (env : CreateEnv) (bo0 : BoMeta)
    (width height format useFlags : Nat) (modifiers : List Nat) :
    Except Int BoMeta × CreateTrace :=
  let driFormat0 := drm_format_to_dri_format format
  let driUse0 := dri_use_flags useFlags
  let stride := H.strideFromFormat format width
  let bo1 := if driFormat0 = 0 then applyLayout bo0 (H.boFromFormat stride height format) else bo0
  let driFormat := if driFormat0 = 0 then DRI_IMAGE_FORMAT_R8 else driFormat0
  let driUse := if driFormat0 = 0 then driUse0 ||| DRI_IMAGE_USE_LINEAR else driUse0
  let widthF := stride / H.bytesPerPixel format
  let width_ := if driFormat0 = 0 then widthF else width
  let height_ := if driFormat0 = 0 then divRoundUp bo1.totalSize widthF else height
  match modifiers with
  | [] =>
    let call := AllocCall.createImage width_ height_ driFormat driUse
    if ¬env.createImageOk then (Except.error (-env.errnoVal), ⟨driUse, some call, []⟩)
    else dri_create_post H env bo1 height format driFormat0 driUse call
  | _ :: _ =>
    if ¬env.hasCreateWithModifiers then (Except.error (-ENOENT), ⟨driUse, none, []⟩)
    else
      let call := AllocCall.createImageWithModifiers width height driFormat modifiers
      if ¬env.createWithModifiersOk then (Except.error (-env.errnoVal), ⟨driUse, some call, []⟩)
      else dri_create_post H env bo1 height format driFormat0 driUse call

/-- dri.c `dri_bo_create`. -/
def dri_bo_create (H : Helpers) (env : CreateEnv) (bo0 : BoMeta)
    (width height format useFlags : Nat) : Except Int BoMeta × CreateTrace :=
  dri_bo_create_common H env bo0 width height format useFlags []

/-- dri.c `dri_bo_create_with_modifiers`: forwards `use_flags = 0`. -/
def dri_bo_create_with_modifiers (H : Helpers) (env : CreateEnv) (bo0 : BoMeta)
    (width height format : Nat) (modifiers : List Nat) : Except Int BoMeta × CreateTrace :=
  dri_bo_create_common H env bo0 width height format 0 modifiers

theorem dri_create_post_driUse (H : Helpers) (env : CreateEnv) (bo1 : BoMeta)
    (height format driFormat0 driUse : Nat) (call : AllocCall) :
    (dri_create_post H env bo1 height format driFormat0 driUse call).2.driUse = driUse := by
  unfold dri_create_post
  repeat' split
  all_goals rfl

/-- The `dri_use` variable of `dri_bo_create_common`: the flag translation,
plus the linear bit forced by the fallback path. -/
theorem create_common_driUse (H : Helpers) (env : CreateEnv) (bo0 : BoMeta)
    (width height format useFlags : Nat) (modifiers : List Nat) :
    (dri_bo_create_common H env bo0 width height format useFlags modifiers).2.driUse =
      if drm_format_to_dri_format format = 0 then
        dri_use_flags useFlags ||| DRI_IMAGE_USE_LINEAR
      else dri_use_flags useFlags := by
  unfold dri_bo_create_common
  cases modifiers with
  | nil =>
    dsimp only
    split
    · rfl
    · rw [dri_create_post_driUse]
  | cons a t =>
    dsimp only
    split
    · rfl
    · split
      · rfl
      · rw [dri_create_post_driUse]

theorem lor_and_linear (x : Nat) :
    (x ||| DRI_IMAGE_USE_LINEAR) &&& DRI_IMAGE_USE_LINEAR = DRI_IMAGE_USE_LINEAR := by
  have h8 : DRI_IMAGE_USE_LINEAR = 2 ^ 3 := by norm_num [DRI_IMAGE_USE_LINEAR]
  rw [h8, Nat.and_two_pow, Nat.testBit_lor, Nat.testBit_two_pow_self]
  simp

theorem dri_create_post_allocCall (H : Helpers) (env : CreateEnv) (bo1 : BoMeta)
    (height format driFormat0 driUse : Nat) (call : AllocCall) :
    (dri_create_post H env bo1 height format driFormat0 driUse call).2.allocCall = some call := by
  unfold dri_create_post
  repeat' split
  all_goals rfl

/-- On the fallback (no DRI format) path a successful post-allocation run
yields exactly the `drv_bo_from_format` geometry of the reported stride
with plane 0's handle on every plane, having queried only plane 0's handle
and stride. -/
theorem dri_create_post_fallback_ok (H : Helpers) (env : CreateEnv) (bo1 : BoMeta)
    (height format driUse : Nat) (call : AllocCall) (m : BoMeta)
    (hm : (dri_create_post H env bo1 height format 0 driUse call).1 = Except.ok m) :
    m = { applyLayout bo1 (H.boFromFormat env.plane0Stride height format) with
          handles :=
            List.replicate (H.boFromFormat env.plane0Stride height format).numPlanes
              env.plane0Handle }
    ∧ (dri_create_post H env bo1 height format 0 driUse call).2.queries =
        [(DRI_IMAGE_ATTRIB_HANDLE, 0), (DRI_IMAGE_ATTRIB_STRIDE, 0)] := by
  by_cases hph : env.plane0HandleOk
  · by_cases hps : env.plane0StrideOk
    · have hred : dri_create_post H env bo1 height format 0 driUse call =
          (Except.ok
            { applyLayout bo1 (H.boFromFormat env.plane0Stride height format) with
              handles :=
                List.replicate (H.boFromFormat env.plane0Stride height format).numPlanes
                  env.plane0Handle },
            ⟨driUse, some call,
              [(DRI_IMAGE_ATTRIB_HANDLE, 0), (DRI_IMAGE_ATTRIB_STRIDE, 0)]⟩) := by
        simp [dri_create_post, hph, hps]
      rw [hred] at hm
      simp only [Except.ok.injEq] at hm
      exact ⟨hm.symm, by rw [hred]⟩
    · simp [dri_create_post, hph, hps] at hm
  · simp [dri_create_post, hph] at hm

/-- With an empty modifier list and a fallback format, the allocation call
is `createImage` on the R8 blob geometry. -/
theorem create_common_fallback_allocCall (H : Helpers) (env : CreateEnv) (bo0 : BoMeta)
    (w h fmt uf : Nat) (hf : drm_format_to_dri_format fmt = 0) :
    (dri_bo_create_common H env bo0 w h fmt uf []).2.allocCall =
      some (AllocCall.createImage
        (H.strideFromFormat fmt w / H.bytesPerPixel fmt)
        (divRoundUp (H.boFromFormat (H.strideFromFormat fmt w) h fmt).totalSize
          (H.strideFromFormat fmt w / H.bytesPerPixel fmt))
        DRI_IMAGE_FORMAT_R8
        (dri_use_flags uf ||| DRI_IMAGE_USE_LINEAR)) := by
  simp only [dri_bo_create_common, hf, if_pos, applyLayout]
  split
  · rfl
  · rw [dri_create_post_allocCall]

/-- C2, amended (empty modifier list).  When the format has no DRI image
representation, `dri_bo_create_common` via `createImage` allocates a linear
R8 image of width `stride / bytes_per_pixel` and height
`DIV_ROUND_UP(total_size, width)`; on success it has queried only plane 0's
handle and stride, recomputed the geometry by `drv_bo_from_format` on the
reported stride, and copied plane 0's handle to every plane. -/
theorem c2_fallback_r8 (H : Helpers) (env : CreateEnv) (bo0 : BoMeta)
    (w h fmt uf : Nat) (m : BoMeta)
    (hf : drm_format_to_dri_format fmt = 0)
    (hm : (dri_bo_create_common H env bo0 w h fmt uf []).1 = Except.ok m) :
    ((dri_bo_create_common H env bo0 w h fmt uf []).2.allocCall =
      some (AllocCall.createImage
        (H.strideFromFormat fmt w / H.bytesPerPixel fmt)
        (divRoundUp (H.boFromFormat (H.strideFromFormat fmt w) h fmt).totalSize
          (H.strideFromFormat fmt w / H.bytesPerPixel fmt))
        DRI_IMAGE_FORMAT_R8
        (dri_use_flags uf ||| DRI_IMAGE_USE_LINEAR)))
    ∧ ((dri_bo_create_common H env bo0 w h fmt uf []).2.driUse &&& DRI_IMAGE_USE_LINEAR
        = DRI_IMAGE_USE_LINEAR)
    ∧ (m.numPlanes = (H.boFromFormat env.plane0Stride h fmt).numPlanes
      ∧ m.strides = (H.boFromFormat env.plane0Stride h fmt).strides
      ∧ m.offsets = (H.boFromFormat env.plane0Stride h fmt).offsets
      ∧ m.sizes = (H.boFromFormat env.plane0Stride h fmt).sizes
      ∧ m.totalSize = (H.boFromFormat env.plane0Stride h fmt).totalSize
      ∧ m.handles =
          List.replicate (H.boFromFormat env.plane0Stride h fmt).numPlanes env.plane0Handle
      ∧ (dri_bo_create_common H env bo0 w h fmt uf []).2.queries =
          [(DRI_IMAGE_ATTRIB_HANDLE, 0), (DRI_IMAGE_ATTRIB_STRIDE, 0)]) := by
  refine ⟨create_common_fallback_allocCall H env bo0 w h fmt uf hf, ?_, ?_⟩
  · rw [create_common_driUse, if_pos hf]
    exact lor_and_linear _
  · have hpost : (dri_bo_create_common H env bo0 w h fmt uf []).1 =
        (dri_create_post H env
          (applyLayout bo0 (H.boFromFormat (H.strideFromFormat fmt w) h fmt)) h fmt 0
          (dri_use_flags uf ||| DRI_IMAGE_USE_LINEAR)
          (AllocCall.createImage
            (H.strideFromFormat fmt w / H.bytesPerPixel fmt)
            (divRoundUp (H.boFromFormat (H.strideFromFormat fmt w) h fmt).totalSize
              (H.strideFromFormat fmt w / H.bytesPerPixel fmt))
            DRI_IMAGE_FORMAT_R8
            (dri_use_flags uf ||| DRI_IMAGE_USE_LINEAR))).1
      ∧ (dri_bo_create_common H env bo0 w h fmt uf []).2.queries =
        (dri_create_post H env
          (applyLayout bo0 (H.boFromFormat (H.strideFromFormat fmt w) h fmt)) h fmt 0
          (dri_use_flags uf ||| DRI_IMAGE_USE_LINEAR)
          (AllocCall.createImage
            (H.strideFromFormat fmt w / H.bytesPerPixel fmt)
            (divRoundUp (H.boFromFormat (H.strideFromFormat fmt w) h fmt).totalSize
              (H.strideFromFormat fmt w / H.bytesPerPixel fmt))
            DRI_IMAGE_FORMAT_R8
            (dri_use_flags uf ||| DRI_IMAGE_USE_LINEAR))).2.queries := by
      by_cases hci : env.createImageOk
      · simp only [dri_bo_create_common, hf, if_pos, applyLayout, hci]
        exact ⟨rfl, rfl⟩
      · refine absurd hm ?_
        simp [dri_bo_create_common, hf, hci]
    rw [hpost.1] at hm
    obtain ⟨hmeq, hq⟩ := dri_create_post_fallback_ok H env _ h fmt _ _ m hm
    subst hmeq
    refine ⟨rfl, rfl, rfl, rfl, rfl, rfl, ?_⟩
    rw [hpost.2, hq]

/-- Concrete layout helpers used as test input: stride twice the width, one
byte per pixel, a two-plane semi-planar layout. -/
def testHelpers : Helpers :=
  { strideFromFormat := fun _ w => 2 * w
    bytesPerPixel := fun _ => 1
    boFromFormat := fun s h _ =>
      { numPlanes := 2, strides := [s, s], offsets := [0, s * h]
        sizes := [s * h, s * h / 2], totalSize := s * h + s * h / 2 } }

/-- Import environment with no planes and failing modifier queries; only
used where the import path is not taken. -/
def importEnvNone : ImportEnv :=
  { modifierUpperOk := false, modifierLowerOk := false, modifierUpper := 0, modifierLower := 0
    numPlanesOk := true, planes := [], errnoVal := 0 }

def c2Env : CreateEnv :=
  { hasCreateWithModifiers := true, createImageOk := true, createWithModifiersOk := true
    plane0HandleOk := true, plane0Handle := 9, plane0StrideOk := true, plane0Stride := 64
    errnoVal := 5, importEnv := importEnvNone }

/-- C2, counterexample.  With a non-empty modifier list and a format with
no DRI representation, the allocation call passes the caller's original
width (4), not the claimed `stride / bytes_per_pixel` (8): the claim is
false for create requests that carry modifiers. -/
theorem c2_counterexample :
    drm_format_to_dri_format DRM_FORMAT_NV12 = 0
    ∧ (dri_bo_create_common testHelpers c2Env boZero 4 4 DRM_FORMAT_NV12 0 [0]).2.allocCall
      = some (AllocCall.createImageWithModifiers 4 4 DRI_IMAGE_FORMAT_R8 [0])
    ∧ testHelpers.strideFromFormat DRM_FORMAT_NV12 4 / testHelpers.bytesPerPixel DRM_FORMAT_NV12
      = 8
    ∧ (4 : Nat) ≠ 8 :=
  ⟨by decide, rfl, rfl, by decide⟩

/-- Result of the fallback create in the witness below: geometry from
`drv_bo_from_format` applied to the reported stride 64 at height 4, plane
0's handle 9 copied to both planes. -/
def c2M : BoMeta :=
  { numPlanes := 2, strides := [64, 64], offsets := [0, 256], sizes := [256, 128]
    handles := [9, 9], totalSize := 384, formatModifier := 0 }

theorem c2_fallback_r8_witness :
    (drm_format_to_dri_format DRM_FORMAT_NV12 = 0
      ∧ (dri_bo_create_common testHelpers c2Env boZero 4 4 DRM_FORMAT_NV12 0 []).1
        = Except.ok c2M)
    ∧ (dri_bo_create_common testHelpers c2Env boZero 4 4 DRM_FORMAT_NV12 0 []).2.allocCall =
        some (AllocCall.createImage
          (testHelpers.strideFromFormat DRM_FORMAT_NV12 4 /
            testHelpers.bytesPerPixel DRM_FORMAT_NV12)
          (divRoundUp
            (testHelpers.boFromFormat (testHelpers.strideFromFormat DRM_FORMAT_NV12 4) 4
              DRM_FORMAT_NV12).totalSize
            (testHelpers.strideFromFormat DRM_FORMAT_NV12 4 /
              testHelpers.bytesPerPixel DRM_FORMAT_NV12))
          DRI_IMAGE_FORMAT_R8 (dri_use_flags 0 ||| DRI_IMAGE_USE_LINEAR))
    ∧ c2M.handles =
        List.replicate (testHelpers.boFromFormat c2Env.plane0Stride 4 DRM_FORMAT_NV12).numPlanes
          c2Env.plane0Handle
    ∧ c2M.handles = [9, 9] :=
  ⟨⟨by decide, rfl⟩,
    (c2_fallback_r8 testHelpers c2Env boZero 4 4 DRM_FORMAT_NV12 0 c2M (by decide) rfl).1,
    (c2_fallback_r8 testHelpers c2Env boZero 4 4 DRM_FORMAT_NV12 0 c2M
      (by decide) rfl).2.2.2.2.2.2.2.1,
    by decide⟩

/-- C10, counterexample.  For a modifier-based allocation of a format with
no DRI representation, the fallback sets the linear bit in `dri_use`, so
the usage computed on this path is not just SHARE and does include
linear. -/
theorem c10_counterexample :
    drm_format_to_dri_format DRM_FORMAT_NV12 = 0
    ∧ (dri_bo_create_with_modifiers testHelpers c2Env boZero 4 4 DRM_FORMAT_NV12 [0]).2.driUse
      = (DRI_IMAGE_USE_SHARE ||| DRI_IMAGE_USE_LINEAR)
    ∧ (DRI_IMAGE_USE_SHARE ||| DRI_IMAGE_USE_LINEAR) &&& DRI_IMAGE_USE_LINEAR ≠ 0
    ∧ (DRI_IMAGE_USE_SHARE ||| DRI_IMAGE_USE_LINEAR) ≠ DRI_IMAGE_USE_SHARE :=
  ⟨by decide, rfl, by decide, by decide⟩

/-- C10, amended.  `dri_bo_create_with_modifiers` forwards `use_flags = 0`,
so no caller flag reaches the usage translation: scanout and cursor are
never in `dri_use` on this path, and for every format with a DRI image
representation `dri_use` is exactly SHARE.  (For fallback formats the
opaque-blob path additionally sets the linear bit.) -/
theorem c10_modifiers_use_flags (H : Helpers) (env : CreateEnv) (bo0 : BoMeta)
    (w h fmt : Nat) (mods : List Nat) :
    dri_bo_create_with_modifiers H env bo0 w h fmt mods
      = dri_bo_create_common H env bo0 w h fmt 0 mods
    ∧ (drm_format_to_dri_format fmt ≠ 0 →
        (dri_bo_create_with_modifiers H env bo0 w h fmt mods).2.driUse = DRI_IMAGE_USE_SHARE)
    ∧ (dri_bo_create_with_modifiers H env bo0 w h fmt mods).2.driUse
        &&& (DRI_IMAGE_USE_SCANOUT ||| DRI_IMAGE_USE_CURSOR) = 0 := by
  refine ⟨rfl, ?_, ?_⟩
  · intro hne
    rw [dri_bo_create_with_modifiers, create_common_driUse, if_neg hne]
    decide
  · rw [dri_bo_create_with_modifiers, create_common_driUse]
    split
    · decide
    · decide

theorem c10_modifiers_use_flags_witness :
    drm_format_to_dri_format DRM_FORMAT_XRGB8888 ≠ 0
    ∧ (dri_bo_create_with_modifiers testHelpers c2Env boZero 4 4 DRM_FORMAT_XRGB8888 [0]).2.driUse
      = DRI_IMAGE_USE_SHARE :=
  ⟨by decide,
    (c10_modifiers_use_flags testHelpers c2Env boZero 4 4 DRM_FORMAT_XRGB8888 [0]).2.1
      (by decide)⟩

/-! ## dri_bo_import (dri.c) -/

/-- Modelled from the spec: `drv_get_standard_fourcc` (helpers, not part of
this source set) maps the Android-private YV12 fourcc to its standard
equivalent and leaves every other format unchanged. -/
def drv_get_standard_fourcc (format : Nat) : Nat :=
  if format = DRM_FORMAT_YVU420_ANDROID then DRM_FORMAT_YVU420 else format

/-- The image-creation call issued by `dri_bo_import`. -/
inductive ImportCreateCall where
  | fromDmaBufs2 (width height fourccFormat modifier : Nat)
  | fromFds (width height fourccFormat : Nat)
deriving DecidableEq

/-- Environment of driver answers for a `dri_bo_import` run. -/
structure ImportBoEnv where
  hasCreateImageFromDmaBufs2 : Bool
  createFromDmaBufs2Ok : Bool
  createFromFdsOk : Bool
  errnoVal : Int
  importEnv : ImportEnv

/-- The `drv_import_fd_data` fields `dri_bo_import` reads. -/
structure ImportData where
  width : Nat
  height : Nat
  format : Nat
  formatModifier : Nat
deriving DecidableEq

/-- dri.c `dri_bo_import`: a non-INVALID modifier requires the
`createImageFromDmaBufs2` entry point (`-ENOSYS` when absent or when it
fails); the INVALID modifier goes through `createImageFromFds`; either way
the created image is reconciled by `import_into_minigbm`. -/
def dri_bo_import (env : ImportBoEnv) (bo0 : BoMeta) (data : ImportData) :
    Except Int BoMeta × Option ImportCreateCall :=
  if data.formatModifier ≠ DRM_FORMAT_MOD_INVALID then
    if ¬env.hasCreateImageFromDmaBufs2 then (Except.error (-ENOSYS), none)
    else
      let call := ImportCreateCall.fromDmaBufs2 data.width data.height
        (drv_get_standard_fourcc data.format) data.formatModifier
      if ¬env.createFromDmaBufs2Ok then (Except.error (-ENOSYS), some call)
      else
        match import_into_minigbm env.importEnv bo0 with
        | Except.ok m => (Except.ok m, some call)
        | Except.error e => (Except.error e, some call)
  else
    let call := ImportCreateCall.fromFds data.width data.height
      (drv_get_standard_fourcc data.format)
    if ¬env.createFromFdsOk then (Except.error (-env.errnoVal), some call)
    else
      match import_into_minigbm env.importEnv bo0 with
      | Except.ok m => (Except.ok m, some call)
      | Except.error e => (Except.error e, some call)

/-- C4.  A create request with a non-empty modifier list fails with
`-ENOENT` before any allocation call when `createImageWithModifiers` is
unavailable, and an import whose modifier is not the INVALID sentinel fails
with `-ENOSYS` before any image creation when `createImageFromDmaBufs2` is
unavailable: modifiers are never silently ignored. -/
theorem c4_modifiers_not_ignored (H : Helpers) (env : CreateEnv) (bo0 : BoMeta)
    (w h fmt uf : Nat) (mods : List Nat) (ienv : ImportBoEnv) (bo1 : BoMeta) (data : ImportData)
    (hmods : mods ≠ []) (hno : env.hasCreateWithModifiers = false)
    (hmod : data.formatModifier ≠ DRM_FORMAT_MOD_INVALID)
    (hno2 : ienv.hasCreateImageFromDmaBufs2 = false) :
    ((dri_bo_create_common H env bo0 w h fmt uf mods).1 = Except.error (-ENOENT)
      ∧ (dri_bo_create_common H env bo0 w h fmt uf mods).2.allocCall = none)
    ∧ ((dri_bo_import ienv bo1 data).1 = Except.error (-ENOSYS)
      ∧ (dri_bo_import ienv bo1 data).2 = none) := by
  constructor
  · cases mods with
    | nil => exact absurd rfl hmods
    | cons a t =>
      constructor <;> simp [dri_bo_create_common, hno]
  · constructor <;> simp [dri_bo_import, hmod, hno2]

def c4CreateEnv : CreateEnv :=
  { hasCreateWithModifiers := false, createImageOk := true, createWithModifiersOk := true
    plane0HandleOk := true, plane0Handle := 3, plane0StrideOk := true, plane0Stride := 16
    errnoVal := 5, importEnv := importEnvNone }

def c4ImportBoEnv : ImportBoEnv :=
  { hasCreateImageFromDmaBufs2 := false, createFromDmaBufs2Ok := true, createFromFdsOk := true
    errnoVal := 5, importEnv := importEnvNone }

def c4Data : ImportData :=
  { width := 4, height := 4, format := DRM_FORMAT_XRGB8888, formatModifier := 0 }

theorem c4_modifiers_not_ignored_witness :
    (([2] : List Nat) ≠ [] ∧ c4CreateEnv.hasCreateWithModifiers = false
      ∧ c4Data.formatModifier ≠ DRM_FORMAT_MOD_INVALID
      ∧ c4ImportBoEnv.hasCreateImageFromDmaBufs2 = false)
    ∧ (((dri_bo_create_common testHelpers c4CreateEnv boZero 4 4 DRM_FORMAT_XRGB8888 0 [2]).1
        = Except.error (-ENOENT)
      ∧ (dri_bo_create_common testHelpers c4CreateEnv boZero 4 4 DRM_FORMAT_XRGB8888 0
          [2]).2.allocCall = none)
    ∧ ((dri_bo_import c4ImportBoEnv boZero c4Data).1 = Except.error (-ENOSYS)
      ∧ (dri_bo_import c4ImportBoEnv boZero c4Data).2 = none)) :=
  ⟨⟨by decide, rfl, by decide, rfl⟩,
    c4_modifiers_not_ignored testHelpers c4CreateEnv boZero 4 4 DRM_FORMAT_XRGB8888 0 [2]
      c4ImportBoEnv boZero c4Data (by decide) rfl (by decide) rfl⟩

/-! ## dri_init (dri.c) -/

/-- An entry of a DRI extension table: a name (modelled as a code standing
for the C string) and a version. -/
structure DriExt where
  name : Nat
  version : Int
deriving DecidableEq

/-- Name codes for the extension names dri.c looks up. -/
def DRI_CORE_NAME : Nat := 0
def DRI_DRI2_NAME : Nat := 1
def DRI_IMAGE_NAME : Nat := 2
def DRI2_FLUSH_NAME : Nat := 3

/-- dri.c `lookup_extension`: first entry matching the name with at least
the requested version. -/
def lookup_extension (exts : List DriExt) (name : Nat) (minVersion : Int) : Option DriExt :=
  exts.find? fun e => decide (e.name = name) && decide (minVersion ≤ e.version)

/-- The resources of `dri_init` that have a release action. -/
inductive DriResource where
  | fd
  | driverHandle
  | screen
  | context
deriving DecidableEq

/-- Environment for one `dri_init` run: which acquisition steps succeed and
the extension tables returned by the driver (`extensions = none` models
`get_extensions()` returning NULL). -/
structure DriInitEnv where
  openOk : Bool
  dlopenOk : Bool
  dlsymOk : Bool
  extensions : Option (List DriExt)
  screenOk : Bool
  contextOk : Bool
  screenExtensions : List DriExt
deriving DecidableEq

/-- Result of a `dri_init` run: return value, releasable resources in
acquisition order, teardown calls in execution order, and resources still
held on return. -/
structure DriInitResult where
  ret : Int
  acquired : List DriResource
  teardown : List DriResource
  held : List DriResource
deriving DecidableEq

/-- dri.c `dri_init`: open the render node, dlopen the driver, resolve the
get-extensions symbol, look up core (v2) and DRI2 (v4), create screen and
context, look up image (v12) and flush (v4); each failure runs the goto
chain that releases everything acquired so far in reverse order and
returns `-ENODEV`. -/
def dri_init (env : DriInitEnv) : DriInitResult :=
  if ¬env.openOk then ⟨-ENODEV, [], [], []⟩
  else if ¬env.dlopenOk then ⟨-ENODEV, [.fd], [.fd], []⟩
  else
    let freeHandle : DriInitResult :=
      ⟨-ENODEV, [.fd, .driverHandle], [.driverHandle, .fd], []⟩
    let freeContext : DriInitResult :=
      ⟨-ENODEV, [.fd, .driverHandle, .screen, .context],
        [.context, .screen, .driverHandle, .fd], []⟩
    if ¬env.dlsymOk then freeHandle
    else
      match env.extensions with
      | none => freeHandle
      | some exts =>
        if (lookup_extension exts DRI_CORE_NAME 2).isNone then freeHandle
        else if (lookup_extension exts DRI_DRI2_NAME 4).isNone then freeHandle
        else if ¬env.screenOk then freeHandle
        else if ¬env.contextOk then
          ⟨-ENODEV, [.fd, .driverHandle, .screen], [.screen, .driverHandle, .fd], []⟩
        else if (lookup_extension env.screenExtensions DRI_IMAGE_NAME 12).isNone then
          freeContext
        else if (lookup_extension env.screenExtensions DRI2_FLUSH_NAME 4).isNone then
          freeContext
        else
          ⟨0, [.fd, .driverHandle, .screen, .context], [],
            [.fd, .driverHandle, .screen, .context]⟩

/-- C5.  Whenever any bring-up step fails, `dri_init` returns `-ENODEV`,
holds no resource on return, and has torn down exactly the acquired
resources in reverse acquisition order. -/
theorem c5_init_unwinds (env : DriInitEnv) :
    (dri_init env).ret ≠ 0 →
    (dri_init env).ret = -ENODEV
    ∧ (dri_init env).held = []
    ∧ (dri_init env).teardown = (dri_init env).acquired.reverse := by
  simp only [dri_init]
  repeat' split
  all_goals intro h
  all_goals first
  | exact ⟨rfl, rfl, rfl⟩
  | exact absurd rfl h

def c5Env : DriInitEnv :=
  { openOk := true, dlopenOk := true, dlsymOk := true
    extensions := some [⟨DRI_CORE_NAME, 2⟩, ⟨DRI_DRI2_NAME, 4⟩]
    screenOk := true, contextOk := false, screenExtensions := [] }

theorem c5_init_unwinds_witness :
    (dri_init c5Env).ret ≠ 0
    ∧ ((dri_init c5Env).ret = -ENODEV
      ∧ (dri_init c5Env).held = []
      ∧ (dri_init c5Env).teardown = (dri_init c5Env).acquired.reverse) :=
  ⟨by decide, c5_init_unwinds c5Env (by decide)⟩

/-! ## dri_bo_unmap (dri.c) -/

/-- Calls `dri_bo_unmap` makes, with the arguments passed. -/
inductive UnmapAction where
  | unmapImage (image vmaPriv : Nat)
  | flushWithFlags (flags : Nat)
deriving DecidableEq

/-- dri.c `dri_bo_unmap`: unmap the image, then always flush the rendering
context with `__DRI2_FLUSH_CONTEXT`, and return 0. -/
def dri_bo_unmap (image vmaPriv : Nat) : Int × List UnmapAction :=
  (0, [UnmapAction.unmapImage image vmaPriv, UnmapAction.flushWithFlags DRI2_FLUSH_CONTEXT])

/-- C8.  Every `dri_bo_unmap` call first unmaps the image and then always
flushes the rendering context; it returns 0 and never skips the flush. -/
theorem c8_unmap_flushes (image vmaPriv : Nat) :
    (dri_bo_unmap image vmaPriv).1 = 0
    ∧ (dri_bo_unmap image vmaPriv).2 =
        [UnmapAction.unmapImage image vmaPriv, UnmapAction.flushWithFlags DRI2_FLUSH_CONTEXT] :=
  ⟨rfl, rfl⟩

/-! ## gralloc0 (cros_gralloc/gralloc0/gralloc0.cc) -/

/-- gralloc0.cc `gralloc0_convert_usage`: translate Android gralloc usage
bits into minigbm use flags. -/
def gralloc0_convert_usage (usage : Nat) : Nat :=
  BO_USE_NONE
  ||| (if usage &&& GRALLOC_USAGE_CURSOR ≠ 0 then BO_USE_NONE else 0)
  ||| (if usage &&& GRALLOC_USAGE_SW_READ_MASK = GRALLOC_USAGE_SW_READ_RARELY then
        BO_USE_SW_READ_RARELY else 0)
  ||| (if usage &&& GRALLOC_USAGE_SW_READ_MASK = GRALLOC_USAGE_SW_READ_OFTEN then
        BO_USE_SW_READ_OFTEN else 0)
  ||| (if usage &&& GRALLOC_USAGE_SW_WRITE_MASK = GRALLOC_USAGE_SW_WRITE_RARELY then
        BO_USE_SW_WRITE_RARELY else 0)
  ||| (if usage &&& GRALLOC_USAGE_SW_WRITE_MASK = GRALLOC_USAGE_SW_WRITE_OFTEN then
        BO_USE_SW_WRITE_OFTEN else 0)
  ||| (if usage &&& GRALLOC_USAGE_HW_TEXTURE ≠ 0 then BO_USE_TEXTURE else 0)
  ||| (if usage &&& GRALLOC_USAGE_HW_RENDER ≠ 0 then BO_USE_RENDERING else 0)
  ||| (if usage &&& GRALLOC_USAGE_HW_2D ≠ 0 then BO_USE_RENDERING else 0)
  ||| (if usage &&& GRALLOC_USAGE_HW_COMPOSER ≠ 0 then
        BO_USE_SCANOUT ||| BO_USE_TEXTURE else 0)
  ||| (if usage &&& GRALLOC_USAGE_HW_FB ≠ 0 then BO_USE_FRAMEBUFFER else 0)
  ||| (if usage &&& GRALLOC_USAGE_EXTERNAL_DISP ≠ 0 then BO_USE_NONE else 0)
  ||| (if usage &&& GRALLOC_USAGE_PROTECTED ≠ 0 then BO_USE_PROTECTED else 0)
  ||| (if usage &&& GRALLOC_USAGE_HW_VIDEO_ENCODER ≠ 0 then BO_USE_SW_READ_OFTEN else 0)
  ||| (if usage &&& GRALLOC_USAGE_HW_CAMERA_WRITE ≠ 0 then BO_USE_CAMERA_WRITE else 0)
  ||| (if usage &&& GRALLOC_USAGE_HW_CAMERA_READ ≠ 0 then BO_USE_CAMERA_READ else 0)
  ||| (if usage &&& GRALLOC_USAGE_RENDERSCRIPT ≠ 0 then BO_USE_RENDERSCRIPT else 0)

/-- The `cros_gralloc_buffer_descriptor` fields `gralloc0_alloc` fills. -/
structure Gralloc0Descriptor where
  width : Nat
  height : Nat
  droidFormat : Nat
  usage : Nat
  drmFormat : Nat
  useFlags : Nat
deriving DecidableEq

/-- Behaviour of the underlying `cros_gralloc_driver`:
`is_supported`, `allocate` (its return code), and
`cros_gralloc_convert_format`, all outside this source set and kept
abstract. -/
structure GrallocDriver where
  isSupported : Gralloc0Descriptor → Bool
  allocateRet : Gralloc0Descriptor → Int
  convertFormat : Nat → Nat

/-- Outcome of a `gralloc0_alloc` call: return value, whether and with
which descriptor `driver->allocate` was called, the diagnostic log emitted
on the unsupported path as (HAL format, HAL usage, drv format, use flags),
and whether the scanout-drop retry ran. -/
structure AllocOut where
  ret : Int
  allocCalled : Bool
  allocDescriptor : Option Gralloc0Descriptor
  log : Option (Nat × Nat × Nat × Nat)
  retried : Bool
deriving DecidableEq

/-- The descriptor built at the top of `gralloc0_alloc`. -/
def gralloc0_desc (drv : GrallocDriver) (w h format usage : Nat) : Gralloc0Descriptor :=
  { width := w, height := h, droidFormat := format, usage := usage
    drmFormat := drv.convertFormat format
    useFlags := gralloc0_convert_usage usage }

/-- gralloc0.cc line 115: `use_flags &= ~BO_USE_SCANOUT` on the 64-bit
use-flag word. -/
def dropScanout (d : Gralloc0Descriptor) : Gralloc0Descriptor :=
  { d with useFlags := d.useFlags &&& (UINT64_MASK ^^^ BO_USE_SCANOUT) }

/-- gralloc0.cc `gralloc0_alloc`: build the descriptor, probe support,
retry once without scanout when the usage asked for the composer, fail
with `-EINVAL` (logging format/usage/flags) when still unsupported, else
allocate. -/
def gralloc0_alloc (drv : GrallocDriver) (w h format usage : Nat) : AllocOut :=
  let d0 := gralloc0_desc drv w h format usage
  let supported0 := drv.isSupported d0
  if supported0 = false ∧ usage &&& GRALLOC_USAGE_HW_COMPOSER ≠ 0 then
    let d1 := dropScanout d0
    if drv.isSupported d1 = false then
      { ret := -EINVAL, allocCalled := false, allocDescriptor := none
        log := some (format, usage, d1.drmFormat, d1.useFlags), retried := true }
    else
      { ret := drv.allocateRet d1, allocCalled := true, allocDescriptor := some d1
        log := none, retried := true }
  else
    if supported0 = false then
      { ret := -EINVAL, allocCalled := false, allocDescriptor := none
        log := some (format, usage, d0.drmFormat, d0.useFlags), retried := false }
    else
      { ret := drv.allocateRet d0, allocCalled := true, allocDescriptor := some d0
        log := none, retried := false }

theorem clear_scanout_bit (u : Nat) :
    (u &&& (UINT64_MASK ^^^ BO_USE_SCANOUT)) &&& BO_USE_SCANOUT = 0 := by
  rw [Nat.land_assoc]
  have h : (UINT64_MASK ^^^ BO_USE_SCANOUT) &&& BO_USE_SCANOUT = 0 := by decide
  rw [h]
  simp

theorem land_lor_right (a b c : Nat) : (a ||| b) &&& c = (a &&& c) ||| (b &&& c) := by
  apply Nat.eq_of_testBit_eq
  intro i
  simp only [Nat.testBit_land, Nat.testBit_lor]
  cases a.testBit i <;> cases b.testBit i <;> cases c.testBit i <;> rfl

theorem ite_land (c : Prop) [Decidable c] (a b d : Nat) :
    (if c then a else b) &&& d = if c then a &&& d else b &&& d := by
  split <;> rfl

/-- The scanout use flag comes from `GRALLOC_USAGE_HW_COMPOSER` and from
nothing else. -/
theorem convert_usage_scanout (usage : Nat) :
    gralloc0_convert_usage usage &&& BO_USE_SCANOUT ≠ 0 ↔
      usage &&& GRALLOC_USAGE_HW_COMPOSER ≠ 0 := by
  simp only [gralloc0_convert_usage, land_lor_right, ite_land]
  norm_num [BO_USE_NONE, BO_USE_SCANOUT, BO_USE_CURSOR, BO_USE_RENDERING, BO_USE_LINEAR,
    BO_USE_TEXTURE, BO_USE_CAMERA_WRITE, BO_USE_CAMERA_READ, BO_USE_PROTECTED,
    BO_USE_SW_READ_OFTEN, BO_USE_SW_READ_RARELY, BO_USE_SW_WRITE_OFTEN, BO_USE_SW_WRITE_RARELY,
    BO_USE_HW_VIDEO_ENCODER, BO_USE_RENDERSCRIPT, BO_USE_FRAMEBUFFER]
  split <;> simp_all

/-- C3.  When the full combination is unsupported and the usage asked for
the composer (the sole source of the scanout capability), the allocator
retries with scanout dropped: a successful retry allocates with scanout
absent from the use flags; a failed retry returns `-EINVAL`, logs the
format, usage and derived use flags, and never calls allocate. -/
theorem c3_scanout_drop (drv : GrallocDriver) (w h format usage : Nat)
    (h1 : drv.isSupported (gralloc0_desc drv w h format usage) = false)
    (h2 : usage &&& GRALLOC_USAGE_HW_COMPOSER ≠ 0) :
    ((dropScanout (gralloc0_desc drv w h format usage)).useFlags &&& BO_USE_SCANOUT = 0)
    ∧ ((gralloc0_desc drv w h format usage).useFlags &&& BO_USE_SCANOUT ≠ 0 ↔
        usage &&& GRALLOC_USAGE_HW_COMPOSER ≠ 0)
    ∧ (drv.isSupported (dropScanout (gralloc0_desc drv w h format usage)) = true →
        gralloc0_alloc drv w h format usage =
          { ret := drv.allocateRet (dropScanout (gralloc0_desc drv w h format usage))
            allocCalled := true
            allocDescriptor := some (dropScanout (gralloc0_desc drv w h format usage))
            log := none, retried := true })
    ∧ (drv.isSupported (dropScanout (gralloc0_desc drv w h format usage)) = false →
        gralloc0_alloc drv w h format usage =
          { ret := -EINVAL, allocCalled := false, allocDescriptor := none
            log := some (format, usage,
              (dropScanout (gralloc0_desc drv w h format usage)).drmFormat,
              (dropScanout (gralloc0_desc drv w h format usage)).useFlags)
            retried := true }) := by
  refine ⟨clear_scanout_bit _, convert_usage_scanout usage, ?_, ?_⟩
  · intro hs
    simp [gralloc0_alloc, h1, h2, hs]
  · intro hs
    simp [gralloc0_alloc, h1, h2, hs]

/-- Test driver: a combination is supported exactly when scanout is not
requested. -/
def c3Drv : GrallocDriver :=
  { isSupported := fun d => d.useFlags &&& BO_USE_SCANOUT = 0
    allocateRet := fun _ => 0
    convertFormat := fun f => f }

theorem c3_scanout_drop_witness :
    (c3Drv.isSupported (gralloc0_desc c3Drv 4 4 1 GRALLOC_USAGE_HW_COMPOSER) = false
      ∧ GRALLOC_USAGE_HW_COMPOSER &&& GRALLOC_USAGE_HW_COMPOSER ≠ 0
      ∧ c3Drv.isSupported
          (dropScanout (gralloc0_desc c3Drv 4 4 1 GRALLOC_USAGE_HW_COMPOSER)) = true)
    ∧ gralloc0_alloc c3Drv 4 4 1 GRALLOC_USAGE_HW_COMPOSER =
        { ret := 0, allocCalled := true
          allocDescriptor := some (dropScanout (gralloc0_desc c3Drv 4 4 1
            GRALLOC_USAGE_HW_COMPOSER))
          log := none, retried := true } :=
  ⟨⟨by decide, by decide, by decide⟩,
    (c3_scanout_drop c3Drv 4 4 1 GRALLOC_USAGE_HW_COMPOSER (by decide) (by decide)).2.2.1
      (by decide)⟩

/-! ## gralloc0 lock variants -/

/-- Inputs of one `lockAsync` / `lockAsync_ycbcr` call: whether the handle
converts, the handle's droid and drm formats, and the return value of
`driver->lock`. -/
structure LockEnv where
  handleValid : Bool
  droidFormat : Int
  drmFormat : Nat
  lockRet : Int
deriving DecidableEq

/-- Outcome of a lock call: return value, whether `driver->lock` ran, and
whether the buffer was unlocked again before returning. -/
structure LockResult where
  ret : Int
  lockCalled : Bool
  unlockCalled : Bool
deriving DecidableEq

/-- gralloc0.cc `gralloc0_lock_async`: invalid handles and
`HAL_PIXEL_FORMAT_YCbCr_420_888` buffers are rejected with `-EINVAL`
before any mapping. -/
def gralloc0_lock_async (env : LockEnv) : LockResult :=
  if ¬env.handleValid then ⟨-EINVAL, false, false⟩
  else if env.droidFormat = HAL_PIXEL_FORMAT_YCbCr_420_888 then ⟨-EINVAL, false, false⟩
  else ⟨env.lockRet, true, false⟩

/-- gralloc0.cc `gralloc0_lock_async_ycbcr`: non-YUV droid formats are
rejected with `-EINVAL` before any mapping; after a successful lock, drm
formats other than NV12/YVU420 (whose two switch arms both return 0) are
unlocked again and rejected. -/
def gralloc0_lock_async_ycbcr (env : LockEnv) : LockResult :=
  if ¬env.handleValid then ⟨-EINVAL, false, false⟩
  else if env.droidFormat ≠ HAL_PIXEL_FORMAT_YCbCr_420_888
      ∧ env.droidFormat ≠ HAL_PIXEL_FORMAT_YV12
      ∧ env.droidFormat ≠ HAL_PIXEL_FORMAT_IMPLEMENTATION_DEFINED then
    ⟨-EINVAL, false, false⟩
  else if env.lockRet ≠ 0 then ⟨env.lockRet, true, false⟩
  else if env.drmFormat = DRM_FORMAT_NV12 ∨ env.drmFormat = DRM_FORMAT_YVU420
      ∨ env.drmFormat = DRM_FORMAT_YVU420_ANDROID then ⟨0, true, false⟩
  else ⟨-EINVAL, true, true⟩

/-- C7.  A lock variant incompatible with the buffer's droid format is
rejected with `-EINVAL` before `driver->lock` runs, so no mapping is
created or left behind. -/
theorem c7_lock_format_rejected (env : LockEnv) (hv : env.handleValid = true) :
    (env.droidFormat = HAL_PIXEL_FORMAT_YCbCr_420_888 →
      gralloc0_lock_async env = ⟨-EINVAL, false, false⟩)
    ∧ ((env.droidFormat ≠ HAL_PIXEL_FORMAT_YCbCr_420_888
        ∧ env.droidFormat ≠ HAL_PIXEL_FORMAT_YV12
        ∧ env.droidFormat ≠ HAL_PIXEL_FORMAT_IMPLEMENTATION_DEFINED) →
      gralloc0_lock_async_ycbcr env = ⟨-EINVAL, false, false⟩) := by
  constructor
  · intro hf
    simp [gralloc0_lock_async, hv, hf]
  · intro hf
    simp [gralloc0_lock_async_ycbcr, hv, hf]

def c7Env1 : LockEnv :=
  { handleValid := true, droidFormat := 35, drmFormat := DRM_FORMAT_NV12, lockRet := 0 }

def c7Env2 : LockEnv :=
  { handleValid := true, droidFormat := 1, drmFormat := DRM_FORMAT_XRGB8888, lockRet := 0 }

theorem c7_lock_format_rejected_witness :
    (c7Env1.handleValid = true
      ∧ c7Env1.droidFormat = HAL_PIXEL_FORMAT_YCbCr_420_888
      ∧ gralloc0_lock_async c7Env1 = ⟨-EINVAL, false, false⟩)
    ∧ (c7Env2.handleValid = true
      ∧ c7Env2.droidFormat ≠ HAL_PIXEL_FORMAT_YCbCr_420_888
      ∧ gralloc0_lock_async_ycbcr c7Env2 = ⟨-EINVAL, false, false⟩) :=
  ⟨⟨rfl, rfl, (c7_lock_format_rejected c7Env1 rfl).1 rfl⟩,
    ⟨rfl, by decide, (c7_lock_format_rejected c7Env2 rfl).2 (by decide)⟩⟩

/-! ## gralloc0 module initialization -/

/-- The device names `gralloc0_open` distinguishes. -/
inductive OpenName where
  | fb0
  | gpu0
  | other
deriving DecidableEq

/-- The hardware device handed back by `gralloc0_open`. -/
inductive DevKind where
  | alloc
  | fb
deriving DecidableEq

/-- The `gralloc0_module` state: the one-shot flag, whether the driver and
alloc device were constructed (with a generation counter to distinguish
driver instances), whether the framebuffer was set up, and how many times
the underlying DRM device has been opened. -/
structure ModuleState where
  initialized : Bool
  hasDriver : Bool
  driverGen : Nat
  hasAlloc : Bool
  hasFb : Bool
  deviceOpens : Nat
deriving DecidableEq

/-- Outcomes of the external calls `gralloc0_init` makes. -/
structure GrallocEnv where
  driverInitOk : Bool
  initMasterOk : Bool
  fbInitRet : Int
deriving DecidableEq

/-- gralloc0.cc `gralloc0_init` (under the initialization mutex): return 0
at once when the one-shot flag is set; otherwise construct a driver and
initialize it — modelled from the spec: `cros_gralloc_driver::init` /
`init_master` (outside this source set) open the underlying DRM device
exactly once on success — then optionally build the alloc device and the
framebuffer, and only then set the flag. -/
def gralloc0_init (env : GrallocEnv) (s : ModuleState) (initAlloc framebuffer : Bool) :
    Int × ModuleState :=
  if s.initialized then (0, s)
  else
    let ok := if framebuffer then env.initMasterOk else env.driverInitOk
    let s1 :=
      { s with
        hasDriver := true
        driverGen := s.driverGen + 1
        deviceOpens := s.deviceOpens + (if ok then 1 else 0) }
    if ¬ok then (-ENODEV, s1)
    else
      let s2 := if initAlloc then { s1 with hasAlloc := true } else s1
      if framebuffer then
        if env.fbInitRet ≠ 0 then (env.fbInitRet, s2)
        else (0, { s2 with hasFb := true, initialized := true })
      else (0, { s2 with initialized := true })

/-- gralloc0.cc `gralloc0_open_fb0`. -/
def gralloc0_open_fb0 (env : GrallocEnv) (s : ModuleState) :
    Int × ModuleState × Option DevKind :=
  let cont := fun (s2 : ModuleState) =>
    if ¬s2.hasFb then
      if env.fbInitRet ≠ 0 then (env.fbInitRet, s2, (none : Option DevKind))
      else (0, { s2 with hasFb := true }, some DevKind.fb)
    else (0, s2, some DevKind.fb)
  if ¬s.initialized then
    let r := gralloc0_init env s true true
    if r.1 ≠ 0 then (r.1, r.2, none) else cont r.2
  else cont s

/-- gralloc0.cc `gralloc0_open`: an initialized module hands back the
existing alloc device immediately; only `GRALLOC_HARDWARE_GPU0` may
trigger initialization, and an init failure maps to `-ENODEV`. -/
def gralloc0_open (env : GrallocEnv) (s : ModuleState) (name : OpenName) :
    Int × ModuleState × Option DevKind :=
  if name = OpenName.fb0 then gralloc0_open_fb0 env s
  else if s.initialized then (0, s, some DevKind.alloc)
  else if name ≠ OpenName.gpu0 then (-EINVAL, s, none)
  else
    let r := gralloc0_init env s true false
    if r.1 ≠ 0 then (-ENODEV, r.2, none)
    else (0, r.2, some DevKind.alloc)

/-- C9.  Initialization is one-shot and idempotent: with the flag set,
`gralloc0_init` returns 0 leaving the state (driver included) untouched;
every subsequent non-framebuffer open returns the same success with the
same driver, across any sequence of such calls; and a successful first
open performs exactly one underlying device open. -/
theorem c9_init_one_shot (env : GrallocEnv) (s : ModuleState) (ia fb : Bool)
    (hs : s.initialized = true) :
    gralloc0_init env s ia fb = (0, s)
    ∧ (∀ (env2 : GrallocEnv) (name : OpenName), name ≠ OpenName.fb0 →
        gralloc0_open env2 s name = (0, s, some DevKind.alloc))
    ∧ (∀ calls : List (GrallocEnv × OpenName), (∀ c ∈ calls, c.2 ≠ OpenName.fb0) →
        calls.foldl (fun st c => (gralloc0_open c.1 st c.2).2.1) s = s)
    ∧ (∀ (env3 : GrallocEnv) (s0 : ModuleState),
        s0.initialized = false → s0.deviceOpens = 0 → env3.driverInitOk = true →
        (gralloc0_open env3 s0 OpenName.gpu0).1 = 0
        ∧ (gralloc0_open env3 s0 OpenName.gpu0).2.1.initialized = true
        ∧ (gralloc0_open env3 s0 OpenName.gpu0).2.1.deviceOpens = 1) := by
  have hopen : ∀ (env2 : GrallocEnv) (name : OpenName), name ≠ OpenName.fb0 →
      gralloc0_open env2 s name = (0, s, some DevKind.alloc) := by
    intro env2 name hn
    simp [gralloc0_open, hn, hs]
  refine ⟨by simp [gralloc0_init, hs], hopen, ?_, ?_⟩
  · intro calls hc
    induction calls with
    | nil => rfl
    | cons c t ih =>
      rw [List.foldl_cons, hopen c.1 c.2 (hc c (List.mem_cons_self c t))]
      exact ih fun d hd => hc d (List.mem_cons_of_mem c hd)
  · intro env3 s0 h0 hdo hok
    refine ⟨?_, ?_, ?_⟩ <;> simp [gralloc0_open, gralloc0_init, h0, hdo, hok]

def exGEnv : GrallocEnv := { driverInitOk := true, initMasterOk := true, fbInitRet := 0 }

def exState : ModuleState :=
  { initialized := true, hasDriver := true, driverGen := 1, hasAlloc := true, hasFb := false
    deviceOpens := 1 }

theorem c9_init_one_shot_witness :
    exState.initialized = true
    ∧ gralloc0_init exGEnv exState true false = (0, exState)
    ∧ gralloc0_open exGEnv exState OpenName.gpu0 = (0, exState, some DevKind.alloc) :=
  ⟨rfl, (c9_init_one_shot exGEnv exState true false rfl).1,
    (c9_init_one_shot exGEnv exState true false rfl).2.1 exGEnv OpenName.gpu0 (by decide)⟩

end Minigbm
